import Mathlib

/-!
# Shallow embedding of the ShadowBot client event-stream module

This file embeds `src/shadowbot-fe/src/utils/agentStream.js` (the client-side
subscriber: WebSocket event ingestion, job/step aggregation, reconnect backoff,
heartbeat watchdog) into Lean and proves properties of the embedded functions.

Modelling conventions:
* JS objects parsed from JSON are records of `Option` fields; an absent key is
  `none`.  `Object.assign(target, src)` copies exactly the keys present on
  `src`, which for a JSON-parsed payload means: a `some` field overwrites, a
  `none` field leaves the target's field alone (`jsMerge`).  When the source is
  an object literal written in the code (as in `_ingestStepStart` /
  `_ingestStepEnd`), every listed key is copied even when its value is
  `undefined`, so those fields are overwritten unconditionally.
* `Date.now()` is passed in explicitly as `now : Nat` (milliseconds).
* Network effects (`fetch`) are passed in as explicit oracle arguments of type
  `Except String _`, so the pure control flow around them is preserved.
* JS truthiness on strings (`x || d`): `undefined` and `""` are falsy.
* The timers themselves (`setInterval`, `setTimeout`) are not modelled; the
  body they run is (`watchdogTick`, `scheduleReconnect`), together with the
  socket callbacks (`handleOpen`, `handleClose`).
-/

namespace AgentStream

/-- JS `Object.assign` semantics for one JSON-parsed field: a key present on
the source (`some`) overwrites, an absent key (`none`) leaves the target. -/
def jsMerge {α : Type} (src tgt : Option α) : Option α :=
  match src with
  | some v => some v
  | none => tgt

/-- JS `x || d` for an optional string: `undefined` and `""` are falsy. -/
def jsOr (x : Option String) (d : String) : String :=
  match x with
  | some s => if s = "" then d else s
  | none => d

/-- JS `a || b || c || d` chain over optional strings, as in the
`job.error` handler's `errorMsg` computation. -/
def firstTruthy : List (Option String) → String → String
  | [], d => d
  | x :: rest, d =>
    match x with
    | some s => if s = "" then firstTruthy rest d else s
    | none => firstTruthy rest d

/-- Payload of an inbound frame (`ev.payload`): the union of the JSON keys the
client reads across all event types.  Absent keys are `none`. -/
structure Payload where
  job_id : Option String := none
  state : Option String := none
  progress : Option Nat := none
  elapsed_ms : Option Nat := none
  step_id : Option String := none
  status : Option String := none
  duration_ms : Option Nat := none
  error : Option String := none
  message : Option String := none
  output_meta : Option String := none
  agent : Option String := none
  reads : Option String := none
  writes : Option String := none
  turn : Option Nat := none
  deriving Repr, DecidableEq

/-- An inbound frame.  `seq` is `some n` exactly when `typeof ev.seq ===
'number'` holds on the wire frame. -/
structure Event where
  type : String := ""
  seq : Option Int := none
  payload : Payload := {}
  deriving Repr, DecidableEq

/-- `_state.job`: a JS object accumulated by `Object.assign` from `job.status`
payloads, plus the `profile` field set by `runJob`.  It carries every payload
key (`Object.assign(_state.job, p)` copies whatever keys `p` has). -/
structure Job where
  job_id : Option String := none
  state : Option String := none
  progress : Option Nat := none
  elapsed_ms : Option Nat := none
  profile : Option String := none
  step_id : Option String := none
  status : Option String := none
  duration_ms : Option Nat := none
  error : Option String := none
  message : Option String := none
  output_meta : Option String := none
  agent : Option String := none
  reads : Option String := none
  writes : Option String := none
  turn : Option Nat := none
  deriving Repr, DecidableEq

/-- `Object.assign(_state.job, p)` for a JSON-parsed `job.status` payload. -/
def Job.assign (j : Job) (p : Payload) : Job :=
  { j with
    job_id := jsMerge p.job_id j.job_id
    state := jsMerge p.state j.state
    progress := jsMerge p.progress j.progress
    elapsed_ms := jsMerge p.elapsed_ms j.elapsed_ms
    step_id := jsMerge p.step_id j.step_id
    status := jsMerge p.status j.status
    duration_ms := jsMerge p.duration_ms j.duration_ms
    error := jsMerge p.error j.error
    message := jsMerge p.message j.message
    output_meta := jsMerge p.output_meta j.output_meta
    agent := jsMerge p.agent j.agent
    reads := jsMerge p.reads j.reads
    writes := jsMerge p.writes j.writes
    turn := jsMerge p.turn j.turn }

/-- One entry of `_state.steps`: `step_id -> {start, end, status, duration_ms,
error, output_meta, progress, agent, reads, writes, turn}`.
(`end` is a Lean keyword; the field is named `end_`.) -/
structure Step where
  step_id : Option String := none
  status : Option String := none
  start : Option Nat := none
  end_ : Option Nat := none
  duration_ms : Option Nat := none
  error : Option String := none
  output_meta : Option String := none
  progress : Option Nat := none
  agent : Option String := none
  reads : Option String := none
  writes : Option String := none
  turn : Option Nat := none
  deriving Repr, DecidableEq

/-- An entry of `_state.errors` (`{type: ..., ...payload}` /
`{type: 'cancel.error', message}`; the spread payload keys are kept as a
`Payload`). -/
structure ErrEntry where
  type : String
  payload : Payload := {}
  deriving Repr, DecidableEq

/-- The client state `_state` of `agentStream.js`, restricted to the fields
the module itself reads or writes.  `hasWs` models `_state.ws !== null`;
`steps` is the string-keyed map `_state.steps` as an association list. -/
structure ClientState where
  sessionId : Option String := none
  jobId : Option String := none
  hasWs : Bool := false
  connected : Bool := false
  connecting : Bool := false
  lastSeq : Option Int := none
  lastHeartbeatAt : Nat := 0
  reconnectAttempts : Nat := 0
  maxReconnectDelayMs : Nat := 15000
  heartbeatTimeoutSec : Nat := 30
  closedManually : Bool := false
  job : Option Job := none
  steps : List (String × Step) := []
  report : Option Payload := none
  errors : List ErrEntry := []
  gap : Option Payload := none
  eventLog : List Event := []
  connectionStatus : String := "idle"
  lastEventAt : Nat := 0
  lastError : Option String := none
  nextReconnectDelayMs : Nat := 0
  deriving Repr, DecidableEq

/-- Set (or insert) the step stored under key `id`, preserving the order of
the other entries, as assignment to `_state.steps[id]` does. -/
def setStep : List (String × Step) → String → Step → List (String × Step)
  | [], id, st => [(id, st)]
  | (k, v) :: rest, id, st =>
    if k = id then (id, st) :: rest else (k, v) :: setStep rest id st

/-- JS map indexing `_state.steps[p.step_id]`: an `undefined` key indexes the
property literally named `"undefined"`. -/
def jsKey (k : Option String) : String := k.getD "undefined"

/-- `_logEvent`: push, then shift the oldest entry when the log exceeds 500. -/
def logEvent (log : List Event) (ev : Event) : List Event :=
  let l := log ++ [ev]
  if l.length > 500 then l.drop 1 else l

/-- `_ingestJobStatus`: replace the job record when absent or when `job_id`
differs, then `Object.assign` the payload in.  (The terminal-state check in
the source has an empty body and is dead code.) -/
def ingestJobStatus (s : ClientState) (p : Payload) : ClientState :=
  let j0 : Job :=
    match s.job with
    | some j => if j.job_id = p.job_id then j else { job_id := p.job_id }
    | none => { job_id := p.job_id }
  { s with job := some (j0.assign p) }

/-- `_ingestStepStart`: create the step record when absent, then assign the
object literal `{status:'running', start:now, agent, reads, writes, turn}` —
every listed key overwrites, even when the payload value is `undefined`. -/
def ingestStepStart (now : Nat) (s : ClientState) (p : Payload) : ClientState :=
  let id := jsKey p.step_id
  let base := (s.steps.lookup id).getD { step_id := some id }
  let st := { base with
    status := some "running"
    start := some now
    agent := p.agent
    reads := p.reads
    writes := p.writes
    turn := p.turn }
  { s with steps := setStep s.steps id st }

/-- `_ingestStepEnd`: create the step record when absent, then assign the
object literal `{status, end:now, duration_ms, error, output_meta,
progress}` — every listed key overwrites, even when `undefined`. -/
def ingestStepEnd (now : Nat) (s : ClientState) (p : Payload) : ClientState :=
  let id := jsKey p.step_id
  let base := (s.steps.lookup id).getD { step_id := some id }
  let st := { base with
    status := p.status
    end_ := some now
    duration_ms := p.duration_ms
    error := p.error
    output_meta := p.output_meta
    progress := p.progress }
  { s with steps := setStep s.steps id st }

/-- The `switch (ev.type)` dispatch of `_handleEvent` (everything after the
`lastEventAt` / `_logEvent` / `seq` bookkeeping). -/
def dispatchEvent (now : Nat) (s : ClientState) (ev : Event) : ClientState :=
  match ev.type with
  | "ws.subscribed" => s
  | "ws.heartbeat" =>
    { s with lastHeartbeatAt := now, connectionStatus := "connected" }
  | "ws.replay.gap" => { s with gap := some ev.payload }
  | "job.status" => ingestJobStatus s ev.payload
  | "job.error" =>
    let s1 := { s with
      errors := s.errors ++ [({ type := "job.error", payload := ev.payload } : ErrEntry)] }
    let s2 :=
      match s1.job with
      | some j =>
        { s1 with job := some ({ j with state := some (jsOr ev.payload.state "failed") } : Job) }
      | none => s1
    let errorMsg :=
      firstTruthy [ev.payload.error, ev.payload.message, ev.payload.state]
        "Unknown error"
    if errorMsg = "awaiting_execution" then
      { s2 with lastError := some "Backend executor unavailable - job timed out in queue" }
    else
      { s2 with lastError := some errorMsg }
  | "step.start" => ingestStepStart now s ev.payload
  | "step.end" => ingestStepEnd now s ev.payload
  | "step.error" =>
    { s with errors := s.errors ++ [({ type := "step.error", payload := ev.payload } : ErrEntry)] }
  | "report.final" => { s with report := some ev.payload }
  | _ => s

/-- `_handleEvent`: stamp `lastEventAt`, log the event, record a numeric
`seq` into `lastSeq` unconditionally, then dispatch on the type. -/
def handleEvent (now : Nat) (s : ClientState) (ev : Event) : ClientState :=
  let s1 := { s with lastEventAt := now, eventLog := logEvent s.eventLog ev }
  let s2 :=
    match ev.seq with
    | some n => { s1 with lastSeq := some n }
    | none => s1
  dispatchEvent now s2 ev

/-- `_scheduleReconnect`: bump the attempt counter, compute the capped
exponential delay, flag the state as reconnecting. -/
def scheduleReconnect (s : ClientState) : ClientState :=
  let attempts := s.reconnectAttempts + 1
  let delay := min s.maxReconnectDelayMs (1000 * 2 ^ (attempts - 1))
  { s with
    reconnectAttempts := attempts
    connectionStatus := "reconnecting"
    nextReconnectDelayMs := delay }

/-- The `ws.onopen` callback: connected, attempt counter reset. -/
def handleOpen (s : ClientState) : ClientState :=
  { s with
    connected := true
    connecting := false
    reconnectAttempts := 0
    connectionStatus := "connected" }

/-- The `ws.onclose` callback.  Returns the new state and whether
`_scheduleReconnect` was invoked: only when the close was not manual and a
session is present. -/
def handleClose (s : ClientState) : ClientState × Bool :=
  let s1 := { s with
    connected := false
    connectionStatus := if s.closedManually then "closed" else "error" }
  if !s1.closedManually && s1.sessionId.isSome then (scheduleReconnect s1, true)
  else (s1, false)

/-- `forceDisconnect`: when a socket exists, mark the close as manual (and
close the socket; the close itself arrives later via `handleClose`). -/
def forceDisconnect (s : ClientState) : ClientState :=
  if s.hasWs then { s with closedManually := true } else s

/-- One tick of the heartbeat watchdog `setInterval`.  Returns the new state
and whether `ws.close()` was called.  `(now - lastHeartbeatAt)/1000 >
heartbeatTimeoutSec` over JS numbers is `now - lastHeartbeatAt >
heartbeatTimeoutSec * 1000`; a clock that went backwards gives a negative JS
difference and a `0` Nat difference, failing the test either way. -/
def watchdogTick (now : Nat) (s : ClientState) : ClientState × Bool :=
  if !s.connected then (s, false)
  else if s.lastHeartbeatAt = 0 then (s, false)
  else if now - s.lastHeartbeatAt > s.heartbeatTimeoutSec * 1000 then
    ({ s with connectionStatus := "stalled" }, s.hasWs)
  else (s, false)

/-- The terminal job states, as listed in `cancelJob` and `_ingestJobStatus`. -/
def terminalStates : List String := ["completed", "failed", "timeout", "canceled"]

/-- `['completed','failed','timeout','canceled'].includes(job.state)`: an
`undefined` state is not included. -/
def isTerminal (st : Option String) : Bool :=
  match st with
  | some v => v ∈ terminalStates
  | none => false

/-- Outcome of the `fetch` issued by `cancelJob`. -/
inductive CancelFetch where
  | ok (status : Option String) : CancelFetch
  | notOk : CancelFetch
  | throws (msg : String) : CancelFetch
  deriving Repr, DecidableEq

/-- `cancelJob`.  Returns `(new state, returned value, request issued)`.
No job id, no job record, or a terminal job state short-circuits to `false`
before any request is made. -/
def cancelJob (s : ClientState) (fetch : CancelFetch) :
    ClientState × Bool × Bool :=
  if s.jobId = none then (s, false, false)
  else
    match s.job with
    | none => (s, false, false)
    | some j =>
      if isTerminal j.state then (s, false, false)
      else
        match fetch with
        | .ok status => ({ s with job := some { j with state := status } }, true, true)
        | .notOk => (s, false, true)
        | .throws msg =>
          ({ s with errors := s.errors ++
              [({ type := "cancel.error", payload := { message := some msg } } : ErrEntry)] },
            false, true)

/-- Response body of a successful `POST /run`. -/
structure RunResponse where
  session_id : String
  job_id : String
  profile : Option String := none
  deriving Repr, DecidableEq

/-- `_state.job && _state.job.state === 'running'`. -/
def jobRunning (s : ClientState) : Bool :=
  match s.job with
  | some j => j.state = some "running"
  | none => false

/-- JS `String.prototype.trim()`: strip leading and trailing whitespace
(written over the character list so it evaluates by reduction). -/
def jsTrim (s : String) : String :=
  String.mk (((s.data.dropWhile Char.isWhitespace).reverse.dropWhile
    Char.isWhitespace).reverse)

/-- `runJob(query, files, profile, images)` up to (and including) the state
reset after a successful `POST /run`; the trailing `_connectWebSocket()` is
modelled separately.  The three network interactions — `ensureBackendStarted`,
`uploadImages`, and the `/run` fetch — are oracle arguments.  Returns the
resulting state (unchanged on every throw path) and the thrown message or the
run response. -/
def runJob (query : String) (files images : List String)
    (profile : Option String)
    (backend : Except String Unit) (upload : Except String (List String))
    (runFetch : Except String RunResponse) (s : ClientState) :
    ClientState × Except String RunResponse :=
  if query = "" ∨ jsTrim query = "" then (s, .error "Empty query")
  else if jobRunning s then (s, .error "Job already running")
  else
    let backendStep : Except String Unit :=
      if images.length > 0 then
        match backend with
        | .ok _ => .ok ()
        | .error e => .error ("Backend server not available for screenshot query: " ++ e)
      else .ok ()
    match backendStep with
    | .error e => (s, .error e)
    | .ok _ =>
      let uploadStep : Except String (List String) :=
        if images.length > 0 then
          match upload with
          | .ok fs => .ok fs
          | .error e => .error ("Image upload failed: " ++ e)
        else .ok []
      match uploadStep with
      | .error e => (s, .error e)
      | .ok imageFiles =>
        match runFetch with
        | .error e => (s, .error e)
        | .ok data =>
          let _allFiles := files ++ imageFiles
          ({ s with
            sessionId := some data.session_id
            jobId := some data.job_id
            job := some { job_id := some data.job_id, state := some "queued",
                          profile := data.profile }
            steps := []
            report := none
            errors := []
            gap := none }, .ok data)

/-- The job state currently tracked by the client, if any. -/
def jobState (s : ClientState) : Option String :=
  match s.job with
  | some j => j.state
  | none => none

/-- The status recorded for step `id`, if a record exists. -/
def stepStatus (s : ClientState) (id : String) : Option String :=
  match s.steps.lookup id with
  | some st => st.status
  | none => none

/-- Initial client state of the end-to-end scenario: a fresh client for
session `s1` whose socket has just opened (handshake sent without
`last_seq`). -/
def scenarioStart : ClientState :=
  handleOpen { sessionId := some "s1", hasWs := true }

/-- The inbound frames of the end-to-end scenario: the `ws.subscribed` ack
(carrying no `seq`), then the five published events with seq 1..5. -/
def scenarioEvents : List Event :=
  [ { type := "ws.subscribed" },
    { type := "job.status", seq := some 1,
      payload := { job_id := some "J1", state := some "running" } },
    { type := "step.start", seq := some 2,
      payload := { step_id := some "T1", agent := some "planner" } },
    { type := "step.end", seq := some 3,
      payload := { step_id := some "T1", status := some "completed",
                   duration_ms := some 42 } },
    { type := "report.final", seq := some 4,
      payload := { message := some "final report" } },
    { type := "job.status", seq := some 5,
      payload := { job_id := some "J1", state := some "completed" } } ]

/-- The client state after ingesting the whole scenario. -/
def scenarioFinal : ClientState :=
  scenarioEvents.foldl (handleEvent 0) scenarioStart

end AgentStream

namespace AgentStream

/-! ## General lemmas about the event handler -/

/-- The `switch` of `_handleEvent` never touches the diagnostic event log;
only the `_logEvent` call in the prelude does. -/
theorem dispatch_eventLog (now : Nat) (s : ClientState) (ev : Event) :
    (dispatchEvent now s ev).eventLog = s.eventLog := by
  unfold dispatchEvent
  split <;>
    simp [ingestJobStatus, ingestStepStart, ingestStepEnd] <;>
    split <;> split <;> rfl

/-- The `switch` of `_handleEvent` never touches `lastSeq`; only the `seq`
check in the prelude does. -/
theorem dispatch_lastSeq (now : Nat) (s : ClientState) (ev : Event) :
    (dispatchEvent now s ev).lastSeq = s.lastSeq := by
  unfold dispatchEvent
  split <;>
    simp [ingestJobStatus, ingestStepStart, ingestStepEnd] <;>
    split <;> split <;> rfl

/-- `_handleEvent` appends every frame to the event log via `_logEvent`. -/
theorem handleEvent_eventLog (now : Nat) (s : ClientState) (ev : Event) :
    (handleEvent now s ev).eventLog = logEvent s.eventLog ev := by
  unfold handleEvent
  cases h : ev.seq <;> simp [h, dispatch_eventLog]

/-! ## Claim theorems -/

/-- C3: starting from a fresh client for session `s1`, processing the
`ws.subscribed` ack followed by `job.status(running)` (seq 1),
`step.start(T1)` (seq 2), `step.end(T1, completed)` (seq 3), `report.final`
(seq 4) and `job.status(completed)` (seq 5) leaves the client with
`last_seq = 5`, `Job.state = "completed"` and `Step[T1].status =
"completed"`. -/
theorem scenario_final_state :
    scenarioFinal.lastSeq = some 5 ∧
    jobState scenarioFinal = some "completed" ∧
    stepStatus scenarioFinal "T1" = some "completed" := by
  decide

/-- C4: for every reconnect attempt number `n ≥ 1` (entered with the attempt
counter at `n - 1` and the delay cap at its constant 15000 ms),
`_scheduleReconnect` computes the delay `min 15000 (1000 * 2 ^ (n - 1))` and
sets the counter to `n`; for attempts 1..5 the delays are exactly 1000,
2000, 4000, 8000 and 15000 ms; and a successful open resets the counter
to 0. -/
theorem reconnect_backoff (s : ClientState) (n : Nat) (h1 : 1 ≤ n)
    (h2 : s.reconnectAttempts = n - 1) (h3 : s.maxReconnectDelayMs = 15000) :
    (scheduleReconnect s).nextReconnectDelayMs = min 15000 (1000 * 2 ^ (n - 1)) ∧
    (scheduleReconnect s).reconnectAttempts = n ∧
    ((scheduleReconnect { s with reconnectAttempts := 0 }).nextReconnectDelayMs = 1000 ∧
     (scheduleReconnect { s with reconnectAttempts := 1 }).nextReconnectDelayMs = 2000 ∧
     (scheduleReconnect { s with reconnectAttempts := 2 }).nextReconnectDelayMs = 4000 ∧
     (scheduleReconnect { s with reconnectAttempts := 3 }).nextReconnectDelayMs = 8000 ∧
     (scheduleReconnect { s with reconnectAttempts := 4 }).nextReconnectDelayMs = 15000) ∧
    (∀ s' : ClientState, (handleOpen s').reconnectAttempts = 0) := by
  refine ⟨?_, ?_, ⟨?_, ?_, ?_, ?_, ?_⟩, fun s' => rfl⟩
  · simp [scheduleReconnect, h2, h3]
  · simp [scheduleReconnect, h2]; omega
  all_goals simp [scheduleReconnect, h3]

/-- C4 witness: attempt number 1 from a fresh counter yields a 1000 ms
delay and the counter at 1. -/
theorem reconnect_backoff_witness :
    (scheduleReconnect ({} : ClientState)).nextReconnectDelayMs =
      min 15000 (1000 * 2 ^ (1 - 1)) ∧
    (scheduleReconnect ({} : ClientState)).reconnectAttempts = 1 :=
  ⟨(reconnect_backoff {} 1 (by decide) (by decide) (by decide)).1,
   (reconnect_backoff {} 1 (by decide) (by decide) (by decide)).2.1⟩

/-- C6: a close that follows `forceDisconnect` (which sets `closedManually`)
never schedules a reconnect and lands in status `closed`, whereas an
unintended close (`closedManually` unset) with a session present always
reaches `_scheduleReconnect`. -/
theorem manual_close_suppresses_reconnect (s : ClientState)
    (hws : s.hasWs = true) :
    (handleClose (forceDisconnect s)).2 = false ∧
    (handleClose (forceDisconnect s)).1.connectionStatus = "closed" ∧
    (handleClose (forceDisconnect s)).1.reconnectAttempts = s.reconnectAttempts ∧
    (∀ s' : ClientState, s'.closedManually = false → s'.sessionId.isSome →
      (handleClose s').2 = true ∧
      (handleClose s').1.connectionStatus = "reconnecting" ∧
      (handleClose s').1.reconnectAttempts = s'.reconnectAttempts + 1) := by
  refine ⟨?_, ?_, ?_, ?_⟩
  · simp [forceDisconnect, handleClose, hws]
  · simp [forceDisconnect, handleClose, hws]
  · simp [forceDisconnect, handleClose, hws]
  · intro s' h1 h2
    refine ⟨?_, ?_, ?_⟩ <;> simp [handleClose, scheduleReconnect, h1, h2]

/-- C6 witness: concrete states exercising both branches. -/
theorem manual_close_suppresses_reconnect_witness :
    (handleClose (forceDisconnect
      ({ hasWs := true, sessionId := some "s1" } : ClientState))).2 = false ∧
    (handleClose ({ sessionId := some "s1" } : ClientState)).2 = true :=
  ⟨(manual_close_suppresses_reconnect { hasWs := true, sessionId := some "s1" }
      (by decide)).1,
   ((manual_close_suppresses_reconnect { hasWs := true, sessionId := some "s1" }
      (by decide)).2.2.2 { sessionId := some "s1" } (by decide) (by decide)).1⟩

/-- C7: when there is no job id, or the tracked job is in a terminal state
(`completed`, `failed`, `timeout` or `canceled`), `cancelJob` returns
`false`, issues no cancel request, and leaves the whole client state —
including the job — unchanged, whatever the network would have answered. -/
theorem cancelJob_rejected_when_terminal (s : ClientState) (fetch : CancelFetch)
    (h : s.jobId = none ∨ ∃ j, s.job = some j ∧ isTerminal j.state = true) :
    cancelJob s fetch = (s, false, false) := by
  unfold cancelJob
  rcases h with h | ⟨j, hj, hterm⟩
  · simp [h]
  · by_cases hid : s.jobId = none
    · simp [hid]
    · simp [hid, hj, hterm]

/-- C7 witness: a client tracking a completed job refuses to cancel. -/
theorem cancelJob_rejected_when_terminal_witness :
    cancelJob
      ({ jobId := some "J1",
         job := some { job_id := some "J1", state := some "completed" } } : ClientState)
      (CancelFetch.ok (some "canceled")) =
      (({ jobId := some "J1",
          job := some { job_id := some "J1", state := some "completed" } } : ClientState),
       false, false) :=
  cancelJob_rejected_when_terminal
    { jobId := some "J1",
      job := some { job_id := some "J1", state := some "completed" } }
    (CancelFetch.ok (some "canceled"))
    (Or.inr ⟨{ job_id := some "J1", state := some "completed" }, rfl, by decide⟩)

/-- C8: a `step.error` frame appends an entry to the error list but leaves
every step record — and the job and report — exactly as they were. -/
theorem stepError_is_advisory (now : Nat) (s : ClientState) (ev : Event)
    (h : ev.type = "step.error") :
    (handleEvent now s ev).steps = s.steps ∧
    (handleEvent now s ev).errors =
      s.errors ++ [({ type := "step.error", payload := ev.payload } : ErrEntry)] ∧
    (handleEvent now s ev).job = s.job ∧
    (handleEvent now s ev).report = s.report := by
  unfold handleEvent dispatchEvent
  cases hseq : ev.seq <;> simp [h, hseq]

/-- C8 witness: a concrete `step.error` frame against a client with one
running step. -/
theorem stepError_is_advisory_witness :
    (handleEvent 7
      ({ steps := [("T1", { step_id := some "T1", status := some "running" })] }
        : ClientState)
      { type := "step.error", seq := some 9,
        payload := { step_id := some "T1", error := some "boom" } }).steps =
      [("T1", { step_id := some "T1", status := some "running" })] :=
  (stepError_is_advisory 7
    { steps := [("T1", { step_id := some "T1", status := some "running" })] }
    { type := "step.error", seq := some 9,
      payload := { step_id := some "T1", error := some "boom" } }
    rfl).1

/-- `_logEvent` keeps the log at no more than 500 entries, evicting the
oldest entry when a push would exceed the bound. -/
theorem logEvent_length (log : List Event) (ev : Event)
    (h : log.length ≤ 500) :
    (logEvent log ev).length ≤ 500 ∧
    (log.length = 500 → logEvent log ev = log.tail ++ [ev]) := by
  simp only [logEvent]
  constructor
  · split <;> rename_i hsp <;> simp [List.length_append] at hsp ⊢ <;> omega
  · intro h500
    have hne : log ≠ [] := by
      intro hnil; rw [hnil] at h500; simp at h500
    split
    · cases log with
      | nil => exact absurd rfl hne
      | cons a l => simp
    · simp at *; omega

/-- C9: the diagnostic event log never exceeds 500 entries: processing any
inbound frame preserves the bound, and a frame arriving when the log holds
exactly 500 entries evicts the oldest entry. -/
theorem eventLog_bounded (now : Nat) (s : ClientState) (ev : Event)
    (h : s.eventLog.length ≤ 500) :
    (handleEvent now s ev).eventLog.length ≤ 500 ∧
    (s.eventLog.length = 500 →
      (handleEvent now s ev).eventLog = s.eventLog.tail ++ [ev]) := by
  rw [handleEvent_eventLog]
  exact logEvent_length s.eventLog ev h

/-- C9 witness: one frame into an empty log keeps the bound. -/
theorem eventLog_bounded_witness :
    (handleEvent 0 ({} : ClientState) { type := "ws.heartbeat" }).eventLog.length
      ≤ 500 :=
  (eventLog_bounded 0 {} { type := "ws.heartbeat" } (by decide)).1

/-- C10: with a job in state `running`, `runJob` throws and leaves the
client state (session, job, steps, everything) unchanged, for every input
and every network outcome; when the query moreover passes the emptiness
check, the thrown message is `Job already running`; and an empty or
whitespace-only query always throws `Empty query` with the state
unchanged. -/
theorem runJob_guards (query : String) (files images : List String)
    (profile : Option String) (backend : Except String Unit)
    (upload : Except String (List String)) (runFetch : Except String RunResponse)
    (s : ClientState) :
    (jobRunning s = true →
      (runJob query files images profile backend upload runFetch s).1 = s ∧
      (∃ e, (runJob query files images profile backend upload runFetch s).2 =
        Except.error e) ∧
      (¬(query = "" ∨ jsTrim query = "") →
        runJob query files images profile backend upload runFetch s =
          (s, Except.error "Job already running"))) ∧
    ((query = "" ∨ jsTrim query = "") →
      runJob query files images profile backend upload runFetch s =
        (s, Except.error "Empty query")) := by
  constructor
  · intro hrun
    by_cases hq : query = "" ∨ jsTrim query = ""
    · refine ⟨?_, ⟨"Empty query", ?_⟩, fun hq' => absurd hq hq'⟩ <;>
        simp [runJob, hq]
    · refine ⟨?_, ⟨"Job already running", ?_⟩, fun _ => ?_⟩ <;>
        simp [runJob, hq, hrun]
  · intro hq
    simp [runJob, hq]

/-- C10 witness: a client with a running job rejects a fresh query with
`Job already running`, and rejects a whitespace-only query with
`Empty query`. -/
theorem runJob_guards_witness :
    runJob "next task" [] [] none (Except.ok ()) (Except.ok [])
      (Except.error "unused")
      ({ job := some { job_id := some "J1", state := some "running" } } : ClientState) =
      (({ job := some { job_id := some "J1", state := some "running" } } : ClientState),
        Except.error "Job already running") ∧
    runJob " " [] [] none (Except.ok ()) (Except.ok [])
      (Except.error "unused")
      ({ job := some { job_id := some "J1", state := some "running" } } : ClientState) =
      (({ job := some { job_id := some "J1", state := some "running" } } : ClientState),
        Except.error "Empty query") :=
  ⟨((runJob_guards "next task" [] [] none (Except.ok ()) (Except.ok [])
      (Except.error "unused")
      { job := some { job_id := some "J1", state := some "running" } }).1
      (by decide)).2.2 (by decide),
   (runJob_guards " " [] [] none (Except.ok ()) (Except.ok [])
      (Except.error "unused")
      { job := some { job_id := some "J1", state := some "running" } }).2
      (Or.inr (by decide))⟩

/-- A client tracking job `J1` that has already completed. -/
def stTerminalJob : ClientState :=
  { jobId := some "J1",
    job := some { job_id := some "J1", state := some "completed" } }

/-- A late `job.status` frame for the same job carrying state `running`. -/
def evLateRunning : Event :=
  { type := "job.status", seq := some 6,
    payload := { job_id := some "J1", state := some "running" } }

/-- C1 counterexample: a job already in the terminal state `completed` does
NOT ignore a later `job.status(running)` frame for the same `job_id` — the
handler merges the payload and the job state becomes `running`. -/
theorem terminal_job_not_ignored_cex :
    jobState stTerminalJob = some "completed" ∧
    jobState (handleEvent 0 stTerminalJob evLateRunning) = some "running" := by
  decide

/-- C1 (amended): `_ingestJobStatus` merges every `job.status` payload
unconditionally — whenever the payload carries a `state`, the resulting
`Job.state` is exactly the payload's state, terminal or not.  Hence an exact
duplicate of a terminal event leaves `Job.state` unchanged, but a late
state-changing event does overwrite a terminal state. -/
theorem jobStatus_merges_unconditionally (now : Nat) (s : ClientState)
    (ev : Event) (st : String) (htype : ev.type = "job.status")
    (hstate : ev.payload.state = some st) :
    jobState (handleEvent now s ev) = some st := by
  unfold handleEvent dispatchEvent ingestJobStatus
  cases hseq : ev.seq <;>
    simp [htype, hseq, jobState, Job.assign, jsMerge, hstate]

/-- C1 witness: the amended theorem applied to the counterexample input. -/
theorem jobStatus_merges_unconditionally_witness :
    jobState (handleEvent 0 stTerminalJob evLateRunning) = some "running" :=
  jobStatus_merges_unconditionally 0 stTerminalJob evLateRunning "running"
    rfl rfl

/-- A client that has already seen seq 5. -/
def stSeq5 : ClientState := { lastSeq := some 5 }

/-- A frame carrying the smaller seq 3. -/
def evSeq3 : Event := { type := "ws.subscribed", seq := some 3 }

/-- C2 counterexample: `last_seq` is not `max(last_seq, seq)` — a frame with
seq 3 arriving when `last_seq = 5` drops `last_seq` to 3. -/
theorem lastSeq_decreases_cex :
    stSeq5.lastSeq = some 5 ∧
    (handleEvent 0 stSeq5 evSeq3).lastSeq = some 3 := by
  decide

/-- C2 (amended): every inbound frame with a numeric `seq` overwrites
`last_seq` with that seq unconditionally (`last_seq = seq`, not
`max(last_seq, seq)`), so `last_seq` decreases when a smaller seq arrives;
a frame without a numeric `seq` leaves `last_seq` unchanged. -/
theorem lastSeq_overwritten (now : Nat) (s : ClientState) (ev : Event)
    (n : Int) (h : ev.seq = some n) :
    (handleEvent now s ev).lastSeq = some n ∧
    (∀ ev' : Event, ev'.seq = none →
      (handleEvent now s ev').lastSeq = s.lastSeq) := by
  constructor
  · unfold handleEvent
    rw [h]
    simp [dispatch_lastSeq]
  · intro ev' h'
    unfold handleEvent
    rw [h']
    simp [dispatch_lastSeq]

/-- C2 witness: the amended theorem applied to the counterexample input. -/
theorem lastSeq_overwritten_witness :
    (handleEvent 0 stSeq5 evSeq3).lastSeq = some 3 :=
  (lastSeq_overwritten 0 stSeq5 evSeq3 3 rfl).1

/-- A connected client that has never received a heartbeat
(`lastHeartbeatAt = 0`). -/
def stNoHeartbeat : ClientState :=
  { connected := true, hasWs := true, connectionStatus := "connected" }

/-- C5 counterexample: with `connectionStatus = connected` and no heartbeat
ever received, a watchdog tick far past the 30 s window does nothing — the
`!lastHeartbeatAt` early return skips the staleness check, the status stays
`connected` and the socket is not closed. -/
theorem watchdog_never_heartbeat_cex :
    stNoHeartbeat.connected = true ∧
    stNoHeartbeat.connectionStatus = "connected" ∧
    stNoHeartbeat.lastHeartbeatAt = 0 ∧
    watchdogTick 1000000 stNoHeartbeat = (stNoHeartbeat, false) := by
  decide

/-- C5 (amended): a watchdog tick turns a connected client `stalled` and
closes its socket only when at least one heartbeat has been received
(`lastHeartbeatAt ≠ 0`) and more than 30 s have elapsed since it; a client
that never received a heartbeat is left untouched by every tick. -/
theorem watchdog_stalls_after_heartbeat (now : Nat) (s : ClientState)
    (hc : s.connected = true) (hhb : s.lastHeartbeatAt ≠ 0)
    (hto : s.heartbeatTimeoutSec = 30)
    (helapsed : now - s.lastHeartbeatAt > 30000) :
    (watchdogTick now s).1.connectionStatus = "stalled" ∧
    (watchdogTick now s).2 = s.hasWs ∧
    (∀ (now' : Nat) (s' : ClientState), s'.lastHeartbeatAt = 0 →
      watchdogTick now' s' = (s', false)) := by
  refine ⟨?_, ?_, ?_⟩
  · unfold watchdogTick
    simp [hc, hhb, hto, helapsed]
  · unfold watchdogTick
    simp [hc, hhb, hto, helapsed]
  · intro now' s' h0
    unfold watchdogTick
    cases hc' : s'.connected <;> simp [hc', h0]

/-- C5 witness: a connected client whose last heartbeat was at 1 ms, ticked
at 100000 ms, stalls and closes its socket. -/
theorem watchdog_stalls_after_heartbeat_witness :
    (watchdogTick 100000
      ({ connected := true, hasWs := true, lastHeartbeatAt := 1 }
        : ClientState)).1.connectionStatus = "stalled" :=
  (watchdog_stalls_after_heartbeat 100000
    { connected := true, hasWs := true, lastHeartbeatAt := 1 }
    rfl (by decide) rfl (by decide)).1

end AgentStream
